import Mathlib

/-!
Shallow embedding of the ocean-runner execution core
(src/ocean_runner/runner.py and src/ocean_runner/config.py).

Python exceptions are modelled by the PyError type; a Python callable that
may raise is modelled as a function into Except PyError. Stage callbacks
receive the algorithm object in Python; the part of that object fixed by
the engine before any stage runs is the loaded JobDetails, so a stage is
modelled as a function of the JobDetails (plus, for save, the run result).
The asyncio machinery (run_in_executor) awaits every stage call to full
completion before the next statement executes, so execute is modelled as a
sequential function that also records an event trace, from which stage
ordering and error-callback invocations can be read off.
-/

/-- Python string versus pathlib.Path value for Environment.base_dir. -/
inductive StrOrPath where
  | str (s : String)
  | path (p : String)
deriving DecidableEq, Repr

/-- Value of Config.custom_input: Python None, the NoParameters sentinel
class (runner.py line 45), or some other declared pydantic model class,
identified here by a tag. -/
inductive CustomInput where
  | pyNone
  | noParameters
  | shape (tag : String)
deriving DecidableEq, Repr

/-- Python exceptions relevant to the runner. algorithmError is the
Algorithm.Error class (a RuntimeError subclass, runner.py line 162);
the others are distinct builtin exception classes, none of which is a
subclass of Algorithm.Error. -/
inductive PyError where
  | algorithmError (msg : String)
  | assertionError (msg : String)
  | frozenInstanceError (fieldName : String)
  | attributeError (attrName : String)
  | providerError (msg : String)
deriving DecidableEq, Repr

/-- Whether a raised exception is an instance of Algorithm.Error: this is
exactly what the except clause at runner.py line 231 catches. -/
def isAlgorithmError : PyError → Bool
  | .algorithmError _ => true
  | _ => false

/-- Environment (config.py lines 9 to 25). Declared as a frozen dataclass;
every field defaults from the process environment and may be unset. -/
structure Environment where
  base_dir : Option StrOrPath := none
  dids : Option String := none
  transformation_did : Option String := none
  secret : Option String := none
deriving DecidableEq, Repr

/-- Config (config.py lines 28 to 41). Fields: custom_input,
error_callback, logger, environment. Note the dataclass declares no
source_paths field. The error_callback and logger payloads are irrelevant
to the claims and are modelled by presence alone. -/
structure Config where
  custom_input : CustomInput := .pyNone
  error_callback : Option Unit := none
  logger : Option Unit := none
  environment : Environment := {}
deriving DecidableEq, Repr

/-- JobDetails as consumed by the core: the four fields the engine and the
default stages touch, plus the outcome of the read operation that
ParametrizedAlgorithm.job_details performs (Success carries the job
details with parsed input parameters of type V; Failure carries the parse
error). -/
structure JobDetails (V : Type) where
  metadata : List String
  files : List String
  outputsPath : String
  readInput : Except PyError V

/-- Default validate stage (runner.py lines 56 to 59): asserts that
metadata and files are truthy, in that order; an empty collection is falsy
and the failing assert raises AssertionError with the given message. -/
def default_validation {V : Type} (jd : JobDetails V) : Except PyError Unit :=
  if jd.metadata.isEmpty then Except.error (PyError.assertionError "DDOs missing")
  else if jd.files.isEmpty then Except.error (PyError.assertionError "Files missing")
  else Except.ok ()

/-- Default run stage (runner.py lines 62 to 63): unconditionally raises
Algorithm.Error. The quotation marks of the original message are omitted. -/
def default_run {V R : Type} (_jd : JobDetails V) : Except PyError (Option R) :=
  Except.error (PyError.algorithmError "You must register a run method")

/-- Default save stage (runner.py lines 66 to 76): writes str(result) to
result.txt under the output directory; the file effect is outside the
model, the stage completes without raising. -/
def default_save {V R : Type} (_jd : JobDetails V) (_r : Option R) : Except PyError Unit :=
  Except.ok ()

/-- Default error callback (runner.py lines 48 to 53): logs, then
re-raises the caught error. -/
def default_error_callback (e : PyError) : Except PyError Unit :=
  Except.error e

/-- The four stage slots (runner.py class Functions, lines 79 to 84).
A run stage returns a Python value, possibly None, hence Option R. -/
structure Functions (V R : Type) where
  validate : JobDetails V → Except PyError Unit
  run : JobDetails V → Except PyError (Option R)
  save : JobDetails V → Option R → Except PyError Unit
  error : PyError → Except PyError Unit

/-- Functions constructor (runner.py lines 80 to 84): every slot holds its
default. -/
def Functions.init (V R : Type) : Functions V R :=
  { validate := default_validation
    run := default_run
    save := default_save
    error := default_error_callback }

/-- Registration method validate (runner.py lines 174 to 176): stores the
function in the validate slot and returns the function itself. The pair
is (returned value, updated slots). -/
def Algorithm.validate {V R : Type} (fns : Functions V R)
    (fn : JobDetails V → Except PyError Unit) :
    (JobDetails V → Except PyError Unit) × Functions V R :=
  (fn, { fns with validate := fn })

/-- Registration method run (runner.py lines 178 to 180). -/
def Algorithm.run {V R : Type} (fns : Functions V R)
    (fn : JobDetails V → Except PyError (Option R)) :
    (JobDetails V → Except PyError (Option R)) × Functions V R :=
  (fn, { fns with run := fn })

/-- Registration method save_results (runner.py lines 182 to 184). -/
def Algorithm.save_results {V R : Type} (fns : Functions V R)
    (fn : JobDetails V → Option R → Except PyError Unit) :
    (JobDetails V → Option R → Except PyError Unit) × Functions V R :=
  (fn, { fns with save := fn })

/-- Registration method on_error (runner.py lines 186 to 188). -/
def Algorithm.on_error {V R : Type} (fns : Functions V R)
    (fn : PyError → Except PyError Unit) :
    (PyError → Except PyError Unit) × Functions V R :=
  (fn, { fns with error := fn })

/-- Result field right after Algorithm construction (runner.py line 96:
self underscore result is set to None). -/
def initialResult (R : Type) : Option R := none

/-- Result accessor (runner.py lines 164 to 168): raises Algorithm.Error
when the stored field is None, otherwise returns the stored value. The
property only reads the field, it never mutates it. -/
def Algorithm.result {R : Type} (r : Option R) : Except PyError R :=
  match r with
  | none => Except.error (PyError.algorithmError "Result missing, run the algorithm first")
  | some v => Except.ok v

/-- Variant chosen by the factory. -/
inductive Variant where
  | empty
  | parametrized
deriving DecidableEq, Repr

/-- Branch condition of Algorithm.create (runner.py lines 123 to 126): a
missing config is replaced by Config(), and the variant class whose
constructor create then invokes is EmptyAlgorithm exactly when
config.custom_input is None, ParametrizedAlgorithm otherwise. The
constructor invocation itself, which runs the internal-state initializer,
is modelled below in Algorithm.create. -/
def createVariantDispatch (config : Option Config) : Variant :=
  let cfg := match config with
    | none => ({} : Config)
    | some c => c
  if cfg.custom_input = CustomInput.pyNone then Variant.empty
  else Variant.parametrized

/-- Attribute assignment to Environment.base_dir (runner.py lines 144 to
147 assign to configuration.environment.base_dir). Environment is declared
with dataclass frozen set to True (config.py line 9), whose generated
setattr unconditionally raises FrozenInstanceError. -/
def Environment.setattrBaseDir (_env : Environment) (_v : StrOrPath) :
    Except PyError Environment :=
  Except.error (PyError.frozenInstanceError "base_dir")

/-- Attribute read of configuration.source_paths (runner.py line 150).
The Config dataclass (config.py lines 28 to 41) declares no source_paths
field, so the attribute lookup raises AttributeError. -/
def Config.source_paths_attr (_c : Config) : Except PyError (List String) :=
  Except.error (PyError.attributeError "source_paths")

/-- Algorithm internal state initialization (runner.py lines 130 to 160),
run by the constructor for every variant: logger setup (pure, cannot
fail), then normalization of a string base_dir into a Path by assignment
into the frozen Environment, then the read of configuration.source_paths
guarding the sys.path extension. -/
def initializeInternalState (c : Config) : Except PyError Config := do
  let env ← match c.environment.base_dir with
    | some (StrOrPath.str s) => Environment.setattrBaseDir c.environment (StrOrPath.path s)
    | _ => pure c.environment
  let _sp ← Config.source_paths_attr c
  pure { c with environment := env }

/-- Algorithm.create (runner.py lines 116 to 128): picks the variant
class by the dispatch rule and invokes its constructor on the
configuration; the constructor runs the internal-state initializer
(runner.py line 95), so create returns the constructed variant only when
initialization completes, and re-raises the initializer failure
otherwise. -/
def Algorithm.create (config : Option Config) : Except PyError Variant :=
  let cfg := match config with
    | none => ({} : Config)
    | some c => c
  match initializeInternalState cfg with
  | Except.error e => Except.error e
  | Except.ok _ => Except.ok (createVariantDispatch config)

/-- ParametrizedAlgorithm.job_details (runner.py lines 248 to 257):
matches the read outcome, returning the Success payload and raising the
Failure payload unchanged. -/
def ParametrizedAlgorithm.job_details {V : Type} (jd : JobDetails V) :
    Except PyError V :=
  match jd.readInput with
  | Except.ok p => Except.ok p
  | Except.error e => Except.error e

/-- EmptyAlgorithm.job_details (runner.py lines 263 to 266): returns the
loaded job details unchanged (the cast is identity at runtime). -/
def EmptyAlgorithm.job_details {V : Type} (jd : JobDetails V) : JobDetails V :=
  jd

/-- Stage names of the pipeline. -/
inductive StageName where
  | validate
  | run
  | save
deriving DecidableEq, Repr

/-- Observable events of one execute call, in program order. A
stageRaised event marks the completion of a stage by raising; beginStage
and endStage bracket a stage that is entered and completes normally. -/
inductive Event where
  | loadedJobDetails
  | beginStage (s : StageName)
  | endStage (s : StageName)
  | stageRaised (s : StageName) (e : PyError)
  | mkdirOutputs
  | errorCallbackBegin (e : PyError)
  | errorCallbackEnd
deriving DecidableEq, Repr

/-- Rendering str of env.base_dir (runner.py line 197): Python str of None
is the text None, str of a Path or a string is its text. -/
def strOfOptBaseDir : Option StrOrPath → String
  | none => "None"
  | some (StrOrPath.str s) => s
  | some (StrOrPath.path p) => p

/-- The provider config dict built by execute (runner.py lines 195 to
202): base_dir is always present as a string; dids, secret and
transformation_did are dropped when None. -/
def envConfigDict (env : Environment) : List (String × String) :=
  (([("base_dir", some (strOfOptBaseDir env.base_dir)),
     ("dids", env.dids),
     ("secret", env.secret),
     ("transformation_did", env.transformation_did)] :
    List (String × Option String)).filterMap
    (fun kv => kv.2.map (fun v => (kv.1, v))))

/-- Custom input value passed to load_job_details (runner.py lines 204 to
206): None when configuration.custom_input is the NoParameters class,
the configuration value itself otherwise. -/
def executeCustomInput (ci : CustomInput) : CustomInput :=
  if ci = CustomInput.noParameters then CustomInput.pyNone else ci

/-- Outcome of one execute call: the event trace, the returned value or
uncaught exception (ret), and the result field after the call. -/
structure ExecOutcome (R : Type) where
  trace : List Event
  ret : Except PyError (Option R)
  finalResult : Option R

/-- The except branch of execute (runner.py lines 231 to 232): run the
registered error callback on the caught error; if the callback itself
raises, that exception propagates out of execute; otherwise execute falls
through to return the current result field. -/
def errorPath {V R : Type} (fns : Functions V R) (e : PyError) (r : Option R)
    (tr : List Event) : ExecOutcome R :=
  let tr2 := tr ++ [Event.errorCallbackBegin e]
  match fns.error e with
  | Except.ok _ => { trace := tr2 ++ [Event.errorCallbackEnd], ret := Except.ok r, finalResult := r }
  | Except.error e2 => { trace := tr2, ret := Except.error e2, finalResult := r }

/-- Dispatch on a stage exception: the except clause at runner.py line 231
names Algorithm.Error, so only instances of that class enter the error
path; any other exception propagates uncaught. -/
def handleStageException {V R : Type} (fns : Functions V R) (e : PyError)
    (r : Option R) (tr : List Event) : ExecOutcome R :=
  if isAlgorithmError e then errorPath fns e r tr
  else { trace := tr, ret := Except.error e, finalResult := r }

/-- Body of the try block of Algorithm.execute (runner.py lines 211 to
234), entered once the provider has resolved the job details: validate,
run and save are awaited to completion in order; the result field is
assigned the run value when run completes; the output directory is
created between run and save; Algorithm.Error instances raised by a stage
are routed to the error callback; finally the current result field is
returned. r0 is the result field at entry (None on a fresh instance). -/
def executeLoaded {V R : Type} (fns : Functions V R) (jd : JobDetails V)
    (r0 : Option R) : ExecOutcome R :=
  let tr0 := [Event.loadedJobDetails, Event.beginStage StageName.validate]
  match fns.validate jd with
  | Except.error e =>
    handleStageException fns e r0 (tr0 ++ [Event.stageRaised StageName.validate e])
  | Except.ok _ =>
    let tr1 := tr0 ++ [Event.endStage StageName.validate, Event.beginStage StageName.run]
    match fns.run jd with
    | Except.error e =>
      handleStageException fns e r0 (tr1 ++ [Event.stageRaised StageName.run e])
    | Except.ok v =>
      let tr2 := tr1 ++ [Event.endStage StageName.run, Event.mkdirOutputs, Event.beginStage StageName.save]
      match fns.save jd v with
      | Except.error e =>
        handleStageException fns e v (tr2 ++ [Event.stageRaised StageName.save e])
      | Except.ok _ =>
        { trace := tr2 ++ [Event.endStage StageName.save], ret := Except.ok v, finalResult := v }

/-- Algorithm.execute (runner.py lines 194 to 234). load_job_details is
the external provider, given the custom input value and the environment
dict; a provider failure propagates before the try block, leaving an
empty trace; on success the try block runs the three stages. -/
def execute {V R : Type} (cfg : Config)
    (load_job_details : CustomInput → List (String × String) → Except PyError (JobDetails V))
    (fns : Functions V R) (r0 : Option R) : ExecOutcome R :=
  match load_job_details (executeCustomInput cfg.custom_input) (envConfigDict cfg.environment) with
  | Except.error e => { trace := [], ret := Except.error e, finalResult := r0 }
  | Except.ok jd => executeLoaded fns jd r0

/-- Stage begin and end markers of a trace, error-path events dropped. -/
def stageMarks (tr : List Event) : List (StageName × Bool) :=
  tr.filterMap (fun ev => match ev with
    | Event.beginStage s => some (s, true)
    | Event.endStage s => some (s, false)
    | Event.stageRaised s _ => some (s, false)
    | _ => none)

/-- The fully sequential marker sequence: validate opens and closes, then
run opens and closes, then save opens and closes. -/
def canonicalStageSeq : List (StageName × Bool) :=
  [(StageName.validate, true), (StageName.validate, false),
   (StageName.run, true), (StageName.run, false),
   (StageName.save, true), (StageName.save, false)]

/-- Number of error-callback invocations recorded in a trace. -/
def countErrorCallbacks (tr : List Event) : Nat :=
  tr.countP (fun ev => match ev with
    | Event.errorCallbackBegin _ => true
    | _ => false)

/-- Environment of the repo test fixture: Environment with base_dir set
to the string ./_data. -/
def testsEnvironment : Environment :=
  { base_dir := some (StrOrPath.str "./_data") }

/-- Config of the repo test fixture. -/
def testsConfig : Config :=
  { environment := testsEnvironment }

/-- A job details value with nonempty metadata and files and a successful
read. -/
def jd0 : JobDetails Unit :=
  { metadata := ["ddo1"], files := ["file1"], outputsPath := "outputs", readInput := Except.ok () }

/-- A job details value whose metadata collection is empty. -/
def jdNoMetadata : JobDetails Unit :=
  { metadata := [], files := ["file1"], outputsPath := "outputs", readInput := Except.ok () }

/-- A provider that always resolves to the given job details. -/
def providerOf {V : Type} (jd : JobDetails V) :
    CustomInput → List (String × String) → Except PyError (JobDetails V) :=
  fun _ _ => Except.ok jd

/-- Error callback that swallows every error (catches and does not
re-raise). -/
def swallowingCallback : PyError → Except PyError Unit :=
  fun _ => Except.ok ()

/-- A provider that always fails to resolve job details. -/
def failingProvider : CustomInput → List (String × String) → Except PyError (JobDetails Unit) :=
  fun _ _ => Except.error (PyError.providerError "cannot resolve job details")

theorem errorPath_swallow_eq {V R : Type} (fns : Functions V R) (e : PyError)
    (r : Option R) (tr : List Event) (h : fns.error e = Except.ok ()) :
    errorPath fns e r tr
      = { trace := tr ++ [Event.errorCallbackBegin e, Event.errorCallbackEnd],
          ret := Except.ok r, finalResult := r } := by
  unfold errorPath
  rw [h]
  simp

theorem handle_swallow_eq {V R : Type} (fns : Functions V R) (e : PyError)
    (r : Option R) (tr : List Event) (halg : isAlgorithmError e = true)
    (hsw : fns.error e = Except.ok ()) :
    handleStageException fns e r tr
      = { trace := tr ++ [Event.errorCallbackBegin e, Event.errorCallbackEnd],
          ret := Except.ok r, finalResult := r } := by
  unfold handleStageException
  rw [halg]
  simp only [if_true]
  exact errorPath_swallow_eq fns e r tr hsw

theorem handle_not_algError_eq {V R : Type} (fns : Functions V R) (e : PyError)
    (r : Option R) (tr : List Event) (halg : isAlgorithmError e = false) :
    handleStageException fns e r tr
      = { trace := tr, ret := Except.error e, finalResult := r } := by
  unfold handleStageException
  rw [halg]
  simp only [Bool.false_eq_true, if_false]

theorem errorCallbackBegin_mem_errorPath {V R : Type} (fns : Functions V R)
    (e : PyError) (r : Option R) (tr : List Event) :
    Event.errorCallbackBegin e ∈ (errorPath fns e r tr).trace := by
  unfold errorPath
  cases h : fns.error e <;> simp

theorem errorCallbackBegin_mem_handle {V R : Type} (fns : Functions V R)
    (e : PyError) (r : Option R) (tr : List Event)
    (halg : isAlgorithmError e = true) :
    Event.errorCallbackBegin e ∈ (handleStageException fns e r tr).trace := by
  unfold handleStageException
  rw [halg]
  simp only [if_true]
  exact errorCallbackBegin_mem_errorPath fns e r tr

theorem stageMarks_errorPath {V R : Type} (fns : Functions V R) (e : PyError)
    (r : Option R) (tr : List Event) :
    stageMarks (errorPath fns e r tr).trace = stageMarks tr := by
  unfold errorPath
  cases h : fns.error e <;> simp [stageMarks, List.filterMap_append]

theorem stageMarks_handle {V R : Type} (fns : Functions V R) (e : PyError)
    (r : Option R) (tr : List Event) :
    stageMarks (handleStageException fns e r tr).trace = stageMarks tr := by
  unfold handleStageException
  cases halg : isAlgorithmError e
  · simp only [Bool.false_eq_true, if_false]
  · simp only [if_true]
    exact stageMarks_errorPath fns e r tr

theorem execute_provider_error {V R : Type} (cfg : Config)
    (p : CustomInput → List (String × String) → Except PyError (JobDetails V))
    (fns : Functions V R) (r0 : Option R) (e : PyError)
    (hp : p (executeCustomInput cfg.custom_input) (envConfigDict cfg.environment) = Except.error e) :
    execute cfg p fns r0 = { trace := [], ret := Except.error e, finalResult := r0 } := by
  unfold execute
  rw [hp]

theorem execute_provider_ok {V R : Type} (cfg : Config)
    (p : CustomInput → List (String × String) → Except PyError (JobDetails V))
    (fns : Functions V R) (r0 : Option R) (jd : JobDetails V)
    (hp : p (executeCustomInput cfg.custom_input) (envConfigDict cfg.environment) = Except.ok jd) :
    execute cfg p fns r0 = executeLoaded fns jd r0 := by
  unfold execute
  rw [hp]

theorem executeLoaded_validate_error {V R : Type} (fns : Functions V R)
    (jd : JobDetails V) (r0 : Option R) (e : PyError)
    (hv : fns.validate jd = Except.error e) :
    executeLoaded fns jd r0
      = handleStageException fns e r0
          [Event.loadedJobDetails, Event.beginStage StageName.validate,
           Event.stageRaised StageName.validate e] := by
  unfold executeLoaded
  simp only [hv]
  rfl

theorem executeLoaded_run_error {V R : Type} (fns : Functions V R)
    (jd : JobDetails V) (r0 : Option R) (e : PyError)
    (hv : fns.validate jd = Except.ok ())
    (hr : fns.run jd = Except.error e) :
    executeLoaded fns jd r0
      = handleStageException fns e r0
          [Event.loadedJobDetails, Event.beginStage StageName.validate,
           Event.endStage StageName.validate, Event.beginStage StageName.run,
           Event.stageRaised StageName.run e] := by
  unfold executeLoaded
  simp only [hv, hr]
  rfl

theorem executeLoaded_save_error {V R : Type} (fns : Functions V R)
    (jd : JobDetails V) (r0 : Option R) (v : Option R) (e : PyError)
    (hv : fns.validate jd = Except.ok ())
    (hr : fns.run jd = Except.ok v)
    (hs : fns.save jd v = Except.error e) :
    executeLoaded fns jd r0
      = handleStageException fns e v
          [Event.loadedJobDetails, Event.beginStage StageName.validate,
           Event.endStage StageName.validate, Event.beginStage StageName.run,
           Event.endStage StageName.run, Event.mkdirOutputs,
           Event.beginStage StageName.save, Event.stageRaised StageName.save e] := by
  unfold executeLoaded
  simp only [hv, hr, hs]
  rfl

theorem executeLoaded_success {V R : Type} (fns : Functions V R)
    (jd : JobDetails V) (r0 : Option R) (v : Option R)
    (hv : fns.validate jd = Except.ok ())
    (hr : fns.run jd = Except.ok v)
    (hs : fns.save jd v = Except.ok ()) :
    executeLoaded fns jd r0
      = { trace :=
            [Event.loadedJobDetails, Event.beginStage StageName.validate,
             Event.endStage StageName.validate, Event.beginStage StageName.run,
             Event.endStage StageName.run, Event.mkdirOutputs,
             Event.beginStage StageName.save, Event.endStage StageName.save],
          ret := Except.ok v, finalResult := v } := by
  unfold executeLoaded
  simp only [hv, hr, hs]
  rfl

/-- C3: for every pipeline run, a failure of the external job-details
provider load operation propagates directly out of execute to the caller
(the returned outcome carries that very exception uncaught), and the event
trace is empty: no stage ever began, the on_error callback was never
invoked, and the JobDetailsLoaded state (the load log event) was never
reached. -/
theorem C3_provider_failure {V R : Type} (cfg : Config)
    (load_job_details : CustomInput → List (String × String) → Except PyError (JobDetails V))
    (fns : Functions V R) (r0 : Option R) (e : PyError)
    (hp : load_job_details (executeCustomInput cfg.custom_input) (envConfigDict cfg.environment)
        = Except.error e) :
    (execute cfg load_job_details fns r0).ret = Except.error e ∧
    (execute cfg load_job_details fns r0).trace = [] := by
  unfold execute
  rw [hp]
  exact ⟨rfl, rfl⟩

/-- Witness for C3 at a concrete failing provider. -/
theorem C3_provider_failure_witness :
    (execute testsConfig failingProvider (Functions.init Unit Nat) (initialResult Nat)).ret
      = Except.error (PyError.providerError "cannot resolve job details") ∧
    (execute testsConfig failingProvider (Functions.init Unit Nat) (initialResult Nat)).trace = [] :=
  C3_provider_failure testsConfig failingProvider (Functions.init Unit Nat) (initialResult Nat)
    (PyError.providerError "cannot resolve job details") rfl

/-- C4: within one call of execute, stage invocations are strictly
sequential: the begin and end markers of validate, run and save in the
event trace always form a prefix of the canonical sequence in which
validate completes before run begins and run completes before save begins;
in particular no two stages are ever open at once. Both plain and
coroutine stages pass through the same await point (run_in_executor), so a
completion marker in the model stands for full completion of either
kind. -/
theorem C4_sequential_stages {V R : Type} (cfg : Config)
    (load_job_details : CustomInput → List (String × String) → Except PyError (JobDetails V))
    (fns : Functions V R) (r0 : Option R) :
    ∃ n : Nat,
      stageMarks (execute cfg load_job_details fns r0).trace = canonicalStageSeq.take n := by
  cases hp : load_job_details (executeCustomInput cfg.custom_input) (envConfigDict cfg.environment) with
  | error e =>
    rw [execute_provider_error cfg load_job_details fns r0 e hp]
    exact ⟨0, rfl⟩
  | ok jd =>
    rw [execute_provider_ok cfg load_job_details fns r0 jd hp]
    cases hv : fns.validate jd with
    | error e =>
      rw [executeLoaded_validate_error fns jd r0 e hv, stageMarks_handle]
      exact ⟨2, rfl⟩
    | ok u =>
      cases u
      cases hr : fns.run jd with
      | error e =>
        rw [executeLoaded_run_error fns jd r0 e hv hr, stageMarks_handle]
        exact ⟨4, rfl⟩
      | ok v =>
        cases hs : fns.save jd v with
        | error e =>
          rw [executeLoaded_save_error fns jd r0 v e hv hr hs, stageMarks_handle]
          exact ⟨6, rfl⟩
        | ok w =>
          cases w
          rw [executeLoaded_success fns jd r0 v hv hr hs]
          exact ⟨6, rfl⟩

theorem initializeInternalState_error (c : Config) :
    ∃ e : PyError, initializeInternalState c = Except.error e := by
  unfold initializeInternalState
  cases hb : c.environment.base_dir with
  | none => exact ⟨PyError.attributeError "source_paths", rfl⟩
  | some bd =>
    cases bd with
    | str s => exact ⟨PyError.frozenInstanceError "base_dir", rfl⟩
    | path p => exact ⟨PyError.attributeError "source_paths", rfl⟩

theorem create_error_of_initialize {cfg : Config} {e : PyError}
    (h : initializeInternalState cfg = Except.error e) :
    Algorithm.create (some cfg) = Except.error e := by
  unfold Algorithm.create
  simp only [h]

/-- C5: the claim says Algorithm.create returns an EmptyAlgorithm exactly
when the custom input field is unset and a ParametrizedAlgorithm
otherwise, with exactly one of the two variants constructed per
configuration; on the code as shipped create never returns either
variant: the chosen variant class is constructed on the configuration and
its constructor runs the internal-state initializer, which always raises
(FrozenInstanceError when base_dir is a string, AttributeError on the
missing source_paths field otherwise), so create re-raises on the repo
test fixture, on the default configuration, and on every configuration
whatsoever — contradicting the repo tests that assert the isinstance of
the value create returns. -/
theorem C5_create_never_returns :
    Algorithm.create (some testsConfig) = Except.error (PyError.frozenInstanceError "base_dir") ∧
    Algorithm.create none = Except.error (PyError.attributeError "source_paths") ∧
    ∀ cfg : Config, ∃ e : PyError, Algorithm.create (some cfg) = Except.error e := by
  refine ⟨rfl, rfl, ?_⟩
  intro cfg
  obtain ⟨e, he⟩ := initializeInternalState_error cfg
  exact ⟨e, create_error_of_initialize he⟩

/-- C6: accessing job_details on a ParametrizedAlgorithm re-raises a
Failure of the structured-input read unchanged and returns a Success
payload directly, with no wrapping and no default substitution; accessing
job_details on an EmptyAlgorithm returns the loaded JobDetails unmodified
without consulting the read operation at all. -/
theorem C6_job_details_access {V : Type} (jd : JobDetails V) :
    (∀ e : PyError, jd.readInput = Except.error e →
      ParametrizedAlgorithm.job_details jd = Except.error e) ∧
    (∀ p : V, jd.readInput = Except.ok p →
      ParametrizedAlgorithm.job_details jd = Except.ok p) ∧
    EmptyAlgorithm.job_details jd = jd := by
  refine ⟨?_, ?_, rfl⟩
  · intro e he
    simp [ParametrizedAlgorithm.job_details, he]
  · intro p hp
    simp [ParametrizedAlgorithm.job_details, hp]

/-- Job details whose structured-input read fails with a parse error. -/
def jdParseFailure : JobDetails Unit :=
  { metadata := ["ddo1"], files := ["file1"], outputsPath := "outputs",
    readInput := Except.error (PyError.providerError "invalid input parameters") }

/-- Witness for C6 at a concrete failing read. -/
theorem C6_job_details_access_witness :
    ParametrizedAlgorithm.job_details jdParseFailure
      = Except.error (PyError.providerError "invalid input parameters") :=
  (C6_job_details_access jdParseFailure).1 (PyError.providerError "invalid input parameters") rfl

/-- C8: each of the four registration operations stores the given function
in its slot and returns the function itself unchanged, leaving the other
three slots untouched; registration is last-write-wins: after registering
f then g in the same slot, the slot holds g with no stacking, and execute
run on the twice-registered stage set behaves exactly as on a stage set
holding only g. -/
theorem C8_registration {V R : Type} (fns : Functions V R)
    (f g : JobDetails V → Except PyError Unit)
    (fr gr : JobDetails V → Except PyError (Option R))
    (fs gs : JobDetails V → Option R → Except PyError Unit)
    (fe ge : PyError → Except PyError Unit) :
    (Algorithm.validate fns f).1 = f ∧
    ((Algorithm.validate fns f).2).validate = f ∧
    ((Algorithm.validate fns f).2).run = fns.run ∧
    ((Algorithm.validate fns f).2).save = fns.save ∧
    ((Algorithm.validate fns f).2).error = fns.error ∧
    ((Algorithm.validate (Algorithm.validate fns f).2 g).2).validate = g ∧
    (Algorithm.run fns fr).1 = fr ∧
    ((Algorithm.run fns fr).2).run = fr ∧
    ((Algorithm.run fns fr).2).validate = fns.validate ∧
    ((Algorithm.run fns fr).2).save = fns.save ∧
    ((Algorithm.run fns fr).2).error = fns.error ∧
    ((Algorithm.run (Algorithm.run fns fr).2 gr).2).run = gr ∧
    (Algorithm.save_results fns fs).1 = fs ∧
    ((Algorithm.save_results fns fs).2).save = fs ∧
    ((Algorithm.save_results fns fs).2).validate = fns.validate ∧
    ((Algorithm.save_results fns fs).2).run = fns.run ∧
    ((Algorithm.save_results fns fs).2).error = fns.error ∧
    ((Algorithm.save_results (Algorithm.save_results fns fs).2 gs).2).save = gs ∧
    (Algorithm.on_error fns fe).1 = fe ∧
    ((Algorithm.on_error fns fe).2).error = fe ∧
    ((Algorithm.on_error fns fe).2).validate = fns.validate ∧
    ((Algorithm.on_error fns fe).2).run = fns.run ∧
    ((Algorithm.on_error fns fe).2).save = fns.save ∧
    ((Algorithm.on_error (Algorithm.on_error fns fe).2 ge).2).error = ge ∧
    (∀ (cfg : Config)
       (p : CustomInput → List (String × String) → Except PyError (JobDetails V))
       (r0 : Option R),
      execute cfg p (Algorithm.run (Algorithm.run fns fr).2 gr).2 r0
        = execute cfg p { fns with run := gr } r0) := by
  refine ⟨rfl, rfl, rfl, rfl, rfl, rfl, rfl, rfl, rfl, rfl, rfl, rfl, rfl, rfl, rfl, rfl,
    rfl, rfl, rfl, rfl, rfl, rfl, rfl, rfl, fun _ _ _ => rfl⟩

/-- C9: the claim says Algorithm construction normalizes a string base_dir
into a path and appends the declared source paths to the module search
path; on the code as written the initializer instead always raises. On the
repo test fixture (base_dir given as the string ./_data) the assignment
into the frozen Environment dataclass raises FrozenInstanceError, and for
every other configuration the read of configuration.source_paths raises
AttributeError because the Config dataclass declares no such field, so no
construction can complete, contradicting the repo tests that construct
algorithms from exactly such configurations. -/
theorem C9_initialization_always_raises :
    initializeInternalState testsConfig
      = Except.error (PyError.frozenInstanceError "base_dir") ∧
    ∀ c : Config, ∃ e : PyError, initializeInternalState c = Except.error e := by
  exact ⟨rfl, fun c => initializeInternalState_error c⟩

/-- Configuration carrying the NoParameters sentinel. -/
def noParamsConfig : Config := { custom_input := CustomInput.noParameters }

/-- C10 counterexample: at the concrete NoParameters configuration the
clause of the claim saying Algorithm.create returns a
ParametrizedAlgorithm fails on the code as shipped: create raises the
initializer AttributeError instead of returning any variant. -/
theorem C10_counterexample_create_raises :
    Algorithm.create (some noParamsConfig)
      = Except.error (PyError.attributeError "source_paths") := rfl

/-- C10 amended: for every configuration whose custom_input is the
NoParameters class, the create dispatch selects the Parametrized variant
for construction (the field is not None) — the construction itself then
fails inside the broken initializer, so create raises rather than
returning the instance — yet execute passes None as the custom input to
the job-details provider, so the NoParameters sentinel selects the
parametrized variant while being forwarded to the provider as absent
custom input, and execute cannot distinguish such a configuration from
one with custom_input unset. -/
theorem C10_noParameters_sentinel {V R : Type} (cfg : Config)
    (h : cfg.custom_input = CustomInput.noParameters) :
    createVariantDispatch (some cfg) = Variant.parametrized ∧
    (∃ e : PyError, Algorithm.create (some cfg) = Except.error e) ∧
    executeCustomInput cfg.custom_input = CustomInput.pyNone ∧
    (∀ (p : CustomInput → List (String × String) → Except PyError (JobDetails V))
       (fns : Functions V R) (r0 : Option R),
      execute cfg p fns r0
        = execute { cfg with custom_input := CustomInput.pyNone } p fns r0) := by
  refine ⟨?_, ?_, ?_, ?_⟩
  · simp [createVariantDispatch, h]
  · obtain ⟨e, he⟩ := initializeInternalState_error cfg
    exact ⟨e, create_error_of_initialize he⟩
  · simp [executeCustomInput, h]
  · intro p fns r0
    unfold execute
    have hci : executeCustomInput cfg.custom_input
        = executeCustomInput ({ cfg with custom_input := CustomInput.pyNone } : Config).custom_input := by
      simp [executeCustomInput, h]
    rw [hci]

/-- Witness for the amended C10 at the concrete sentinel configuration. -/
theorem C10_noParameters_sentinel_witness :
    createVariantDispatch (some noParamsConfig) = Variant.parametrized ∧
    executeCustomInput noParamsConfig.custom_input = CustomInput.pyNone :=
  ⟨(C10_noParameters_sentinel (V := Unit) (R := Nat) noParamsConfig rfl).1,
   (C10_noParameters_sentinel (V := Unit) (R := Nat) noParamsConfig rfl).2.2.1⟩

/-- Stage set of the C1 counterexample: the defaults with a swallowing
error callback registered through on_error. -/
def fnsDefaultSwallow : Functions Unit Nat :=
  (Algorithm.on_error (Functions.init Unit Nat) swallowingCallback).2

/-- C1 counterexample: with the default validate stage, a registered
swallowing on_error callback and job details whose metadata collection is
empty, the default validation raises AssertionError, which is not an
Algorithm.Error; execute propagates it uncaught and the registered
on_error callback is never invoked, contradicting the claim that any
exception raised inside validate is caught and routed to on_error and
that the default validate assertion failures are caught by the error
path. -/
theorem C1_counterexample_assertion_uncaught :
    (execute testsConfig (providerOf jdNoMetadata) fnsDefaultSwallow (initialResult Nat)).ret
      = Except.error (PyError.assertionError "DDOs missing") ∧
    countErrorCallbacks
      (execute testsConfig (providerOf jdNoMetadata) fnsDefaultSwallow (initialResult Nat)).trace
      = 0 := by
  exact ⟨rfl, rfl⟩

/-- C1 amended: only exceptions that are instances of Algorithm.Error
raised inside validate, run or save are caught and routed to the
registered on_error callback; any other exception, including the default
validate stage assertion failures, propagates out of execute uncaught
with the on_error callback never invoked. -/
theorem C1_algorithm_error_only {V R : Type} (cfg : Config)
    (p : CustomInput → List (String × String) → Except PyError (JobDetails V))
    (fns : Functions V R) (jd : JobDetails V) (r0 : Option R) (e : PyError)
    (hp : p (executeCustomInput cfg.custom_input) (envConfigDict cfg.environment) = Except.ok jd)
    (hstage : fns.validate jd = Except.error e
      ∨ (fns.validate jd = Except.ok () ∧ fns.run jd = Except.error e)
      ∨ (fns.validate jd = Except.ok ()
          ∧ ∃ v, fns.run jd = Except.ok v ∧ fns.save jd v = Except.error e)) :
    (isAlgorithmError e = true →
      Event.errorCallbackBegin e ∈ (execute cfg p fns r0).trace) ∧
    (isAlgorithmError e = false →
      (execute cfg p fns r0).ret = Except.error e ∧
      countErrorCallbacks (execute cfg p fns r0).trace = 0) := by
  rw [execute_provider_ok cfg p fns r0 jd hp]
  rcases hstage with hv | ⟨hv, hr⟩ | ⟨hv, v, hr, hs⟩
  · rw [executeLoaded_validate_error fns jd r0 e hv]
    constructor
    · intro halg
      exact errorCallbackBegin_mem_handle fns e r0 _ halg
    · intro halg
      rw [handle_not_algError_eq fns e r0 _ halg]
      exact ⟨rfl, rfl⟩
  · rw [executeLoaded_run_error fns jd r0 e hv hr]
    constructor
    · intro halg
      exact errorCallbackBegin_mem_handle fns e r0 _ halg
    · intro halg
      rw [handle_not_algError_eq fns e r0 _ halg]
      exact ⟨rfl, rfl⟩
  · rw [executeLoaded_save_error fns jd r0 v e hv hr hs]
    constructor
    · intro halg
      exact errorCallbackBegin_mem_handle fns e v _ halg
    · intro halg
      rw [handle_not_algError_eq fns e v _ halg]
      exact ⟨rfl, rfl⟩

/-- Stage set whose run stage raises Algorithm.Error, defaults elsewhere
kept explicit. -/
def fnsRunRaises : Functions Unit Nat :=
  { validate := fun _ => Except.ok ()
    run := fun _ => Except.error (PyError.algorithmError "boom")
    save := fun _ _ => Except.ok ()
    error := default_error_callback }

/-- Witness for the amended C1: an Algorithm.Error raised by run reaches
the error callback. -/
theorem C1_algorithm_error_only_witness :
    Event.errorCallbackBegin (PyError.algorithmError "boom")
      ∈ (execute testsConfig (providerOf jd0) fnsRunRaises (initialResult Nat)).trace :=
  (C1_algorithm_error_only testsConfig (providerOf jd0) fnsRunRaises jd0 (initialResult Nat)
    (PyError.algorithmError "boom") rfl (Or.inr (Or.inl ⟨rfl, rfl⟩))).1 rfl

/-- Stage set whose save stage raises Algorithm.Error after run returned
the value 7, with a swallowing error callback. -/
def fnsSaveRaises : Functions Unit Nat :=
  { validate := fun _ => Except.ok ()
    run := fun _ => Except.ok (some 7)
    save := fun _ _ => Except.error (PyError.algorithmError "save failed")
    error := swallowingCallback }

/-- C2 counterexample: the save stage raises an Algorithm.Error after run
succeeded with 7 and the registered swallowing on_error is invoked
exactly once, yet the Result Holder is not empty: execute returns 7 and
the result accessor yields 7 instead of raising, contradicting the claim
that the Result Holder remains empty regardless of which stage raised. -/
theorem C2_counterexample_save_stage :
    countErrorCallbacks
      (execute testsConfig (providerOf jd0) fnsSaveRaises (initialResult Nat)).trace = 1 ∧
    (execute testsConfig (providerOf jd0) fnsSaveRaises (initialResult Nat)).ret
      = Except.ok (some 7) ∧
    (execute testsConfig (providerOf jd0) fnsSaveRaises (initialResult Nat)).finalResult
      = some 7 ∧
    Algorithm.result
      (execute testsConfig (providerOf jd0) fnsSaveRaises (initialResult Nat)).finalResult
      = Except.ok 7 := by
  exact ⟨rfl, rfl, rfl, rfl⟩

/-- C2 amended: for every pipeline run in which validate or run raises an
Algorithm.Error and the registered on_error callback swallows (does not
re-raise), execute completes without propagating any exception (it
returns Python None), the on_error callback is invoked exactly once with
the caught error, and the Result Holder remains empty, the result
accessor still raising the not-available error; when the raising stage is
save, the run result is already stored and remains accessible (see the
counterexample). -/
theorem C2_swallowing_callback {V R : Type} (cfg : Config)
    (p : CustomInput → List (String × String) → Except PyError (JobDetails V))
    (fns : Functions V R) (jd : JobDetails V) (e : PyError)
    (hp : p (executeCustomInput cfg.custom_input) (envConfigDict cfg.environment) = Except.ok jd)
    (hswallow : ∀ e2 : PyError, fns.error e2 = Except.ok ())
    (halg : isAlgorithmError e = true)
    (hstage : fns.validate jd = Except.error e
      ∨ (fns.validate jd = Except.ok () ∧ fns.run jd = Except.error e)) :
    (execute cfg p fns (initialResult R)).ret = Except.ok none ∧
    (execute cfg p fns (initialResult R)).finalResult = none ∧
    Algorithm.result (execute cfg p fns (initialResult R)).finalResult
      = Except.error (PyError.algorithmError "Result missing, run the algorithm first") ∧
    countErrorCallbacks (execute cfg p fns (initialResult R)).trace = 1 ∧
    Event.errorCallbackBegin e ∈ (execute cfg p fns (initialResult R)).trace := by
  rw [execute_provider_ok cfg p fns (initialResult R) jd hp]
  rcases hstage with hv | ⟨hv, hr⟩
  · rw [executeLoaded_validate_error fns jd (initialResult R) e hv,
      handle_swallow_eq fns e (initialResult R) _ halg (hswallow e)]
    exact ⟨rfl, rfl, rfl, rfl, by simp⟩
  · rw [executeLoaded_run_error fns jd (initialResult R) e hv hr,
      handle_swallow_eq fns e (initialResult R) _ halg (hswallow e)]
    exact ⟨rfl, rfl, rfl, rfl, by simp⟩

/-- Stage set whose run stage raises Algorithm.Error with a swallowing
error callback registered. -/
def fnsRunRaisesSwallow : Functions Unit Nat :=
  { validate := fun _ => Except.ok ()
    run := fun _ => Except.error (PyError.algorithmError "boom2")
    save := fun _ _ => Except.ok ()
    error := swallowingCallback }

/-- Witness for the amended C2 at a concrete run failure. -/
theorem C2_swallowing_callback_witness :
    countErrorCallbacks
      (execute testsConfig (providerOf jd0) fnsRunRaisesSwallow (initialResult Nat)).trace = 1 :=
  (C2_swallowing_callback testsConfig (providerOf jd0) fnsRunRaisesSwallow jd0
    (PyError.algorithmError "boom2") rfl (fun _ => rfl) rfl (Or.inr ⟨rfl, rfl⟩)).2.2.2.1

/-- Stage set whose run stage completes successfully returning Python
None. -/
def fnsRunNone : Functions Unit Nat :=
  { validate := fun _ => Except.ok ()
    run := fun _ => Except.ok none
    save := fun _ _ => Except.ok ()
    error := default_error_callback }

/-- C7 counterexample: the run stage completes successfully returning the
value None and the whole pipeline completes all three stages, yet the
result accessor still raises the not-available Algorithm.Error instead of
returning that value, because the accessor treats a stored None as
absent; so the claim fails for V equal to None. -/
theorem C7_counterexample_none_result :
    (execute testsConfig (providerOf jd0) fnsRunNone (initialResult Nat)).ret = Except.ok none ∧
    (execute testsConfig (providerOf jd0) fnsRunNone (initialResult Nat)).trace
      = [Event.loadedJobDetails, Event.beginStage StageName.validate,
         Event.endStage StageName.validate, Event.beginStage StageName.run,
         Event.endStage StageName.run, Event.mkdirOutputs,
         Event.beginStage StageName.save, Event.endStage StageName.save] ∧
    Algorithm.result (execute testsConfig (providerOf jd0) fnsRunNone (initialResult Nat)).finalResult
      = Except.error (PyError.algorithmError "Result missing, run the algorithm first") := by
  exact ⟨rfl, rfl, rfl⟩

/-- C7 amended: reading the result accessor before any successful run
raises the not-available Algorithm.Error, and after a run stage completes
successfully returning a non-None value V the accessor returns exactly V;
the accessor is a pure read of the stored field, so every subsequent
access returns the same value. -/
theorem C7_result_accessor {V R : Type} (cfg : Config)
    (p : CustomInput → List (String × String) → Except PyError (JobDetails V))
    (fns : Functions V R) (jd : JobDetails V) (v : R)
    (hp : p (executeCustomInput cfg.custom_input) (envConfigDict cfg.environment) = Except.ok jd)
    (hv : fns.validate jd = Except.ok ())
    (hr : fns.run jd = Except.ok (some v))
    (hs : fns.save jd (some v) = Except.ok ()) :
    Algorithm.result (initialResult R)
      = Except.error (PyError.algorithmError "Result missing, run the algorithm first") ∧
    (execute cfg p fns (initialResult R)).finalResult = some v ∧
    Algorithm.result (execute cfg p fns (initialResult R)).finalResult = Except.ok v ∧
    (execute cfg p fns (initialResult R)).ret = Except.ok (some v) := by
  rw [execute_provider_ok cfg p fns (initialResult R) jd hp,
    executeLoaded_success fns jd (initialResult R) (some v) hv hr hs]
  exact ⟨rfl, rfl, rfl, rfl⟩

/-- Stage set whose run stage returns 42. -/
def fnsRun42 : Functions Unit Nat :=
  { validate := fun _ => Except.ok ()
    run := fun _ => Except.ok (some 42)
    save := fun _ _ => Except.ok ()
    error := default_error_callback }

/-- Witness for the amended C7 at a concrete successful run. -/
theorem C7_result_accessor_witness :
    Algorithm.result
      (execute testsConfig (providerOf jd0) fnsRun42 (initialResult Nat)).finalResult
      = Except.ok 42 :=
  (C7_result_accessor testsConfig (providerOf jd0) fnsRun42 jd0 42 rfl rfl rfl rfl).2.2.1
